import Mathlib

/-!
Shallow embedding of the `react-hello-copilot` repository:
the two paginated list components (`PostsList`, client-paginated, and
`CommentList`, server-paginated), their shared pagination-window
calculator `getPageNumbers`, and the root component's counter.
JavaScript numbers that hold page indices and counts are modelled as
`Int` (all arithmetic in the source stays on small integers), arrays as
`List`, `null`-able strings as `Option String`.
-/

namespace ReactHello

/-- The closed integer range [a, b] as a list: the result of
`for (let i = a; i <= b; i++) pageNumbers.push(i)` in the source.
Empty when `b < a`. By construction it is a contiguous run of integers
starting at `a`. -/
def rangeClosed (a b : Int) : List Int :=
  (List.range (b + 1 - a).toNat).map (fun i : Nat => a + (i : Int))

/-- `getPageNumbers` from `PostsList.jsx` / `CommentList.jsx` (the two
copies are textually identical up to the value of `totalPages` they
close over, here taken as an argument):
`maxPagesToShow = 5`, `startPage = max(1, currentPage - floor(5/2))`,
`endPage = min(totalPages, startPage + 4)`, with `startPage` recomputed
as `max(1, endPage - 4)` when the window is short, then the loop pushes
`startPage..endPage`. -/
def getPageNumbers (currentPage totalPages : Int) : List Int :=
  let maxPagesToShow : Int := 5
  let startPage := max 1 (currentPage - maxPagesToShow / 2)
  let endPage := min totalPages (startPage + maxPagesToShow - 1)
  let startPage :=
    if endPage - startPage + 1 < maxPagesToShow then
      max 1 (endPage - maxPagesToShow + 1)
    else startPage
  rangeClosed startPage endPage

/-- The spec's four-step pagination-window algorithm, written from its
words: `start = max(1, currentPage - floor(windowSize/2))`,
`end = min(totalPages, start + windowSize - 1)`, recompute
`start = max(1, end - windowSize + 1)` when `end - start + 1 < windowSize`,
emit the closed integer range [start, end]. -/
def specWindow (currentPage totalPages windowSize : Int) : List Int :=
  let start := max 1 (currentPage - windowSize / 2)
  let stop := min totalPages (start + windowSize - 1)
  let start :=
    if stop - start + 1 < windowSize then
      max 1 (stop - windowSize + 1)
    else start
  rangeClosed start stop

/-! ### Data model: items, fetch outcomes, requests -/

/-- A Post-shaped record from the posts endpoint (id, title, body, userId). -/
structure Post where
  id : Int
  title : String
  body : String
  userId : Int
deriving DecidableEq

/-- A Comment-shaped record from the comments endpoint (id, email, body). -/
structure Comment where
  id : Int
  email : String
  body : String
deriving DecidableEq

/-- Outcome of one `await fetch(...)` together with the body parse:
a parsed collection, a non-ok response status (the `if (!response.ok)
throw new Error(...)` branch), or a transport failure whose rejection
carries a message. -/
inductive FetchOutcome (α : Type) where
  | success (data : α)
  | httpError (status : Nat)
  | transportError (msg : String)

/-- The query parameters an outgoing comments request carries:
`?_start=${start}&_limit=${limit}`. -/
structure Request where
  start : Int
  limit : Int
deriving DecidableEq

/-! ### PostsList (client-paginated): state and operations -/

/-- Component state of `PostsList.jsx`: `allPosts`, `currentPage`,
`loading`, `error` (a `null`-able string). -/
structure PostsState where
  allPosts : List Post
  currentPage : Int
  loading : Bool
  error : Option String
deriving DecidableEq

/-- `const postsPerPage = 10`. -/
def postsPerPage : Int := 10

/-- Initial hook values of `PostsList`: `[]`, page 1, `loading = true`,
`error = null`. -/
def postsInitialState : PostsState :=
  { allPosts := [], currentPage := 1, loading := true, error := none }

/-- `Math.ceil(allPosts.length / postsPerPage)`, exact over the
rationals, i.e. ceiling division of the length by 10. -/
def postsTotalPages (s : PostsState) : Int :=
  ((s.allPosts.length + 9) / 10 : Nat)

/-- `const indexOfLastPost = currentPage * postsPerPage`. -/
def indexOfLastPost (s : PostsState) : Int :=
  s.currentPage * postsPerPage

/-- `const indexOfFirstPost = indexOfLastPost - postsPerPage`. -/
def indexOfFirstPost (s : PostsState) : Int :=
  indexOfLastPost s - postsPerPage

/-- JavaScript `Array.prototype.slice(begin, end)`: negative indices
count from the end, both indices are clamped into [0, length]. -/
def jsSlice {α : Type} (l : List α) (b e : Int) : List α :=
  let len : Int := l.length
  let b' := if b < 0 then max (len + b) 0 else min b len
  let e' := if e < 0 then max (len + e) 0 else min e len
  (l.drop b'.toNat).take (e' - b').toNat

/-- `const currentPosts = allPosts.slice(indexOfFirstPost, indexOfLastPost)`. -/
def currentPosts (s : PostsState) : List Post :=
  jsSlice s.allPosts (indexOfFirstPost s) (indexOfLastPost s)

/-- `fetchPosts` from `PostsList.jsx`, with the network modelled by a
`FetchOutcome` oracle: `setLoading(true); setError(null)`, then on
success `setAllPosts(data); setCurrentPage(1)`, on a non-ok response
`setError("Error: " + status)`, on a transport failure
`setError(err.message)`; `finally setLoading(false)` in every branch. -/
def fetchPosts (outcome : FetchOutcome (List Post)) (s : PostsState) : PostsState :=
  let s := { s with loading := true, error := none }
  match outcome with
  | .success data =>
      { s with allPosts := data, currentPage := 1, loading := false }
  | .httpError status =>
      { s with error := some ("Error: " ++ toString status), loading := false }
  | .transportError msg =>
      { s with error := some msg, loading := false }

/-- `goToPage` in `PostsList.jsx`: `setCurrentPage(pageNumber)` with no
range check. -/
def postsGoToPage (pageNumber : Int) (s : PostsState) : PostsState :=
  { s with currentPage := pageNumber }

/-- `goToPreviousPage` in `PostsList.jsx`:
`if (currentPage > 1) setCurrentPage(currentPage - 1)`. -/
def postsGoToPreviousPage (s : PostsState) : PostsState :=
  if s.currentPage > 1 then { s with currentPage := s.currentPage - 1 } else s

/-- `goToNextPage` in `PostsList.jsx`:
`if (currentPage < totalPages) setCurrentPage(currentPage + 1)`. -/
def postsGoToNextPage (s : PostsState) : PostsState :=
  if s.currentPage < postsTotalPages s then
    { s with currentPage := s.currentPage + 1 }
  else s

/-! ### CommentList (server-paginated): state and operations -/

/-- Component state of `CommentList.jsx`: `comments`, `currentPage`,
`loading`, `error`. -/
structure CommentState where
  comments : List Comment
  currentPage : Int
  loading : Bool
  error : Option String
deriving DecidableEq

/-- `const commentsPerPage = 10`. -/
def commentsPerPage : Int := 10

/-- `const totalComments = 500`. -/
def totalComments : Int := 500

/-- `const totalPages = Math.ceil(totalComments / commentsPerPage)`,
i.e. ceiling division 500 / 10 = 50. -/
def commentTotalPages : Int := ((500 + 9) / 10 : Nat)

/-- Initial hook values of `CommentList`. -/
def commentInitialState : CommentState :=
  { comments := [], currentPage := 1, loading := true, error := none }

/-- The query parameters of the request `fetchComments(page)` issues:
`const start = (page - 1) * commentsPerPage` and
`_limit=${commentsPerPage}`. -/
def commentRequest (page : Int) : Request :=
  { start := (page - 1) * commentsPerPage, limit := commentsPerPage }

/-- The request URL `fetchComments(page)` builds from the template
literal in the source. -/
def commentRequestUrl (page : Int) : String :=
  "https://jsonplaceholder.typicode.com/comments?_start=" ++
    toString ((page - 1) * commentsPerPage) ++ "&_limit=" ++ toString commentsPerPage

/-- The URL `fetchPosts` requests (no page parameters: the whole
collection). -/
def postsRequestUrl : String :=
  "https://jsonplaceholder.typicode.com/posts"

/-- `fetchComments(page)` from `CommentList.jsx`, network modelled by a
`FetchOutcome` oracle: `setLoading(true); setError(null)`, on success
`setComments(data)`, on failure `setError(...)`, and
`finally setLoading(false)`. `currentPage` is never written here. -/
def fetchComments (outcome : FetchOutcome (List Comment)) (s : CommentState) :
    CommentState :=
  let s := { s with loading := true, error := none }
  match outcome with
  | .success data => { s with comments := data, loading := false }
  | .httpError status =>
      { s with error := some ("Error: " ++ toString status), loading := false }
  | .transportError msg =>
      { s with error := some msg, loading := false }

/-- `goToPage` in `CommentList.jsx`:
`if (pageNumber >= 1 && pageNumber <= totalPages) setCurrentPage(pageNumber)`. -/
def commentGoToPage (pageNumber : Int) (s : CommentState) : CommentState :=
  if pageNumber ≥ 1 ∧ pageNumber ≤ commentTotalPages then
    { s with currentPage := pageNumber }
  else s

/-- `goToPreviousPage` in `CommentList.jsx`. -/
def commentGoToPreviousPage (s : CommentState) : CommentState :=
  if s.currentPage > 1 then { s with currentPage := s.currentPage - 1 } else s

/-- `goToNextPage` in `CommentList.jsx`. -/
def commentGoToNextPage (s : CommentState) : CommentState :=
  if s.currentPage < commentTotalPages then
    { s with currentPage := s.currentPage + 1 }
  else s

/-! ### Event semantics

`PostsList` runs `useEffect(() => { fetchPosts() }, [])`: the fetch
fires exactly once, at mount. The navigation handlers only call
`setCurrentPage`, so a page change never re-runs the effect; only
`handleRefresh` calls `fetchPosts` again. `CommentList` runs
`useEffect(() => { fetchComments(currentPage) }, [currentPage])`: the
effect re-fires exactly when the rendered `currentPage` differs from the
previous render's value, and `handleRefresh` calls
`fetchComments(currentPage)` directly. The step functions below carry a
count (resp. list) of the network requests each event issues. -/

/-- The page-navigation handlers of `PostsList` a user can trigger. -/
inductive PostsNavAction where
  | goto (p : Int)
  | prev
  | next

/-- A mounted `PostsList` together with the number of network fetches it
has issued so far. -/
structure PostsComp where
  state : PostsState
  fetchCount : Nat
deriving DecidableEq

/-- Mounting `PostsList`: the `useEffect(..., [])` body runs
`fetchPosts()` exactly once against the initial hook state. -/
def postsMount (outcome : FetchOutcome (List Post)) : PostsComp :=
  { state := fetchPosts outcome postsInitialState, fetchCount := 1 }

/-- One navigation event on `PostsList`: the handler runs; no effect
depends on `currentPage`, so no fetch is issued. -/
def postsNavStep (c : PostsComp) (a : PostsNavAction) : PostsComp :=
  match a with
  | .goto p => { c with state := postsGoToPage p c.state }
  | .prev => { c with state := postsGoToPreviousPage c.state }
  | .next => { c with state := postsGoToNextPage c.state }

/-- `handleRefresh` on `PostsList`: runs `fetchPosts()` again, issuing
one more network request. -/
def postsRefresh (outcome : FetchOutcome (List Post)) (c : PostsComp) : PostsComp :=
  { state := fetchPosts outcome c.state, fetchCount := c.fetchCount + 1 }

/-- The events a user can trigger on `CommentList`. -/
inductive CommentAction where
  | goto (p : Int)
  | prev
  | next
  | refresh

/-- The synchronous state update a `CommentList` handler performs
(`refresh` updates nothing synchronously; it goes straight to the
fetch). -/
def commentNavUpdate (a : CommentAction) (s : CommentState) : CommentState :=
  match a with
  | .goto p => commentGoToPage p s
  | .prev => commentGoToPreviousPage s
  | .next => commentGoToNextPage s
  | .refresh => s

/-- One user event on `CommentList`: the handler runs, then the
`useEffect(..., [currentPage])` re-fires `fetchComments(currentPage)`
exactly when `currentPage` changed; `handleRefresh` calls
`fetchComments(currentPage)` unconditionally. Returns the new state and
the list of requests the event issued. -/
def commentStep (a : CommentAction) (outcome : FetchOutcome (List Comment))
    (s : CommentState) : CommentState × List Request :=
  match a with
  | .refresh => (fetchComments outcome s, [commentRequest s.currentPage])
  | _ =>
      let s' := commentNavUpdate a s
      if s'.currentPage = s.currentPage then (s', [])
      else (fetchComments outcome s', [commentRequest s'.currentPage])

/-! ### Rendering -/

/-- Truthiness of the `error` state in the JSX guards `if (error)`: a
`null` or empty string is falsy. -/
def truthyError : Option String → Bool
  | none => false
  | some m => m ≠ ""

/-- What `PostsList` returns from its render: the early-returned
spinner, the early-returned alert (with retry button), or the populated
list with its summary line and pagination block (suppressed when
`totalPages ≤ 1`). -/
inductive PostsView where
  | spinner
  | errorAlert (msg : String)
  | list (visible : List Post) (summaryFrom summaryTo total : Int)
      (pagination : List Int)
deriving DecidableEq

/-- The populated-list view of `PostsList`: `currentPosts`, the summary
`Mostrando {indexOfFirstPost + 1}-{Math.min(indexOfLastPost,
allPosts.length)} de {allPosts.length}`, and the pagination block
rendered only when `totalPages > 1`. -/
def postsReadyView (s : PostsState) : PostsView :=
  .list (currentPosts s) (indexOfFirstPost s + 1)
    (min (indexOfLastPost s) s.allPosts.length) s.allPosts.length
    (if postsTotalPages s > 1 then
      getPageNumbers s.currentPage (postsTotalPages s)
    else [])

/-- The render function of `PostsList`: `if (loading) return spinner;
if (error) return alert; return list`. -/
def renderPosts (s : PostsState) : PostsView :=
  if s.loading then .spinner
  else if truthyError s.error then .errorAlert (s.error.getD "")
  else postsReadyView s

/-- What `CommentList` returns from its render. -/
inductive CommentView where
  | spinner
  | errorAlert (msg : String)
  | list (items : List Comment) (page : Int) (pagination : List Int)
deriving DecidableEq

/-- The populated-list view of `CommentList`: the fetched page of
comments, the `Página {currentPage} de {totalPages}` header, and the
pagination block rendered only when `totalPages > 1`. -/
def commentReadyView (s : CommentState) : CommentView :=
  .list s.comments s.currentPage
    (if commentTotalPages > 1 then
      getPageNumbers s.currentPage commentTotalPages
    else [])

/-- The render function of `CommentList`. -/
def renderComments (s : CommentState) : CommentView :=
  if s.loading then .spinner
  else if truthyError s.error then .errorAlert (s.error.getD "")
  else commentReadyView s

/-- Discriminator: the render produced the loading spinner. -/
def PostsView.isSpinner : PostsView → Bool
  | .spinner => true
  | _ => false

/-- Discriminator: the render produced the error alert. -/
def PostsView.isErrorAlert : PostsView → Bool
  | .errorAlert _ => true
  | _ => false

/-- Discriminator: the render produced the populated list. -/
def PostsView.isList : PostsView → Bool
  | .list _ _ _ _ _ => true
  | _ => false

/-- Discriminator: the render produced the loading spinner. -/
def CommentView.isSpinner : CommentView → Bool
  | .spinner => true
  | _ => false

/-- Discriminator: the render produced the error alert. -/
def CommentView.isErrorAlert : CommentView → Bool
  | .errorAlert _ => true
  | _ => false

/-- Discriminator: the render produced the populated list. -/
def CommentView.isList : CommentView → Bool
  | .list _ _ _ => true
  | _ => false

/-- Exactly one of three booleans is true. -/
def exactlyOne (a b c : Bool) : Bool :=
  (a && !b && !c) || (!a && b && !c) || (!a && !b && c)

/-! ### Root composer counter -/

/-- `useState(0)` in `App.jsx`: the counter starts at 0. -/
def countInit : Int := 0

/-- The increment button: `setCount(count + 1)`. -/
def incrementCount (count : Int) : Int := count + 1

/-- The reset button: `setCount(0)`. -/
def resetCount (_count : Int) : Int := 0

/-! ### Concrete states used by closed instances below -/

/-- A concrete `PostsState`: ten posts loaded, page 1, idle. -/
def postsStateEx : PostsState :=
  { allPosts := (List.range 10).map (fun i : Nat => ⟨(i : Int) + 1, "title", "body", 1⟩)
    currentPage := 1
    loading := false
    error := none }

/-- A concrete `CommentState` at page 1, idle. -/
def commentStateEx : CommentState :=
  { comments := [⟨1, "mail@example.com", "body"⟩]
    currentPage := 1
    loading := false
    error := none }

/-- A concrete `CommentState` at the last page (50), idle. -/
def commentStateLast : CommentState :=
  { comments := [], currentPage := 50, loading := false, error := none }

/-! ### Theorems -/

theorem length_rangeClosed (a b : Int) :
    (rangeClosed a b).length = (b + 1 - a).toNat := by
  rw [rangeClosed, List.length_map, List.length_range]

theorem mem_rangeClosed {x a b : Int} :
    x ∈ rangeClosed a b ↔ a ≤ x ∧ x ≤ b := by
  unfold rangeClosed
  rw [List.mem_map]
  constructor
  · rintro ⟨i, hi, rfl⟩
    rw [List.mem_range] at hi
    omega
  · rintro ⟨h1, h2⟩
    refine ⟨(x - a).toNat, ?_, ?_⟩
    · rw [List.mem_range]; omega
    · omega

theorem rangeClosed_getElem (a b : Int) (i : Nat)
    (h : i < (rangeClosed a b).length) :
    (rangeClosed a b).get ⟨i, h⟩ = a + (i : Int) := by
  simp only [rangeClosed, List.get_eq_getElem, List.getElem_map, List.getElem_range]

/-- Consecutive entries of a closed range differ by exactly one:
every list `rangeClosed` produces is contiguous. -/
theorem rangeClosed_contiguous (a b : Int) (i : Nat)
    (h : i + 1 < (rangeClosed a b).length) :
    (rangeClosed a b).get ⟨i + 1, h⟩ =
      (rangeClosed a b).get ⟨i, Nat.lt_of_succ_lt h⟩ + 1 := by
  rw [rangeClosed_getElem, rangeClosed_getElem]
  push_cast
  ring

/-- C1: for every totalPages ≥ 1 and currentPage in [1, totalPages],
`getPageNumbers` (windowSize 5) returns a contiguous integer range
(an instance of `rangeClosed`, of span min 5 totalPages) whose length
is min 5 totalPages, and that range contains currentPage whenever
totalPages ≥ 5. -/
theorem getPageNumbers_window (totalPages currentPage : Int)
    (hT : 1 ≤ totalPages) (hc1 : 1 ≤ currentPage)
    (hc2 : currentPage ≤ totalPages) :
    (∃ s e : Int, getPageNumbers currentPage totalPages = rangeClosed s e ∧
        e + 1 - s = min 5 totalPages) ∧
    ((getPageNumbers currentPage totalPages).length : Int) = min 5 totalPages ∧
    (5 ≤ totalPages → currentPage ∈ getPageNumbers currentPage totalPages) := by
  have h52 : (5 : Int) / 2 = 2 := by decide
  simp only [getPageNumbers, h52]
  split_ifs with hshort
  · refine ⟨⟨_, _, rfl, by omega⟩, ?_, ?_⟩
    · rw [length_rangeClosed]; omega
    · intro h5
      rw [mem_rangeClosed]
      omega
  · refine ⟨⟨_, _, rfl, by omega⟩, ?_, ?_⟩
    · rw [length_rangeClosed]; omega
    · intro h5
      rw [mem_rangeClosed]
      omega

/-- Closed instance of C1 at totalPages = 7, currentPage = 6, with each
hypothesis discharged concretely. -/
theorem getPageNumbers_window_witness :
    (∃ s e : Int, getPageNumbers 6 7 = rangeClosed s e ∧
        e + 1 - s = min 5 7) ∧
    ((getPageNumbers 6 7).length : Int) = min 5 7 ∧
    (5 ≤ (7 : Int) → (6 : Int) ∈ getPageNumbers 6 7) :=
  getPageNumbers_window 7 6 (by decide) (by decide) (by decide)

/-- C2: for every currentPage ≥ 1 and totalPages ≥ 0, the code's
`getPageNumbers` computes exactly the spec's four-step algorithm with
windowSize = 5. -/
theorem getPageNumbers_eq_specWindow (currentPage totalPages : Int)
    (hc : 1 ≤ currentPage) (hT : 0 ≤ totalPages) :
    getPageNumbers currentPage totalPages = specWindow currentPage totalPages 5 :=
  rfl

/-- Closed instance of C2 at currentPage = 3, totalPages = 0. -/
theorem getPageNumbers_eq_specWindow_witness :
    getPageNumbers 3 0 = specWindow 3 0 5 :=
  getPageNumbers_eq_specWindow 3 0 (by decide) (by decide)

/-- C3 fails as stated: in `PostsList` the `goToPage` handler performs
`setCurrentPage(pageNumber)` with no range check, so requesting page 0
(outside [1, totalPages] = [1, 1] here) changes the component state. -/
theorem postsGoToPage_zero_not_noop :
    postsGoToPage 0 postsStateEx ≠ postsStateEx := by
  intro h
  have := congrArg PostsState.currentPage h
  simp [postsGoToPage, postsStateEx] at this

/-- C3 amended: `CommentList`'s three navigation handlers are no-ops
outside [1, totalPages], and `PostsList`'s previous/next handlers are
no-ops at page 1 resp. the last page; but `PostsList`'s `goToPage` sets
`currentPage` to the requested page unconditionally, with no range
validation. -/
theorem navigation_noop_amended :
    (∀ (s : CommentState) (p : Int), p < 1 ∨ commentTotalPages < p →
        commentGoToPage p s = s) ∧
    (∀ s : CommentState, s.currentPage = 1 → commentGoToPreviousPage s = s) ∧
    (∀ s : CommentState, s.currentPage = commentTotalPages →
        commentGoToNextPage s = s) ∧
    (∀ s : PostsState, s.currentPage = 1 → postsGoToPreviousPage s = s) ∧
    (∀ s : PostsState, s.currentPage = postsTotalPages s → postsGoToNextPage s = s) ∧
    (∀ (s : PostsState) (p : Int), postsGoToPage p s = { s with currentPage := p }) := by
  refine ⟨?_, ?_, ?_, ?_, ?_, ?_⟩
  · intro s p hp
    rw [commentGoToPage]
    rw [if_neg]
    omega
  · intro s h
    rw [commentGoToPreviousPage, if_neg]
    omega
  · intro s h
    rw [commentGoToNextPage, if_neg]
    omega
  · intro s h
    rw [postsGoToPreviousPage, if_neg]
    omega
  · intro s h
    rw [postsGoToNextPage, if_neg]
    omega
  · intro s p
    rfl

/-- Closed instance of the amended C3 at concrete states: page 0 and
page 51 requests, previous at page 1, next at the last page. -/
theorem navigation_noop_amended_witness :
    commentGoToPage 0 commentStateEx = commentStateEx ∧
    commentGoToPage 51 commentStateEx = commentStateEx ∧
    commentGoToPreviousPage commentStateEx = commentStateEx ∧
    commentGoToNextPage commentStateLast = commentStateLast ∧
    postsGoToPreviousPage postsStateEx = postsStateEx ∧
    postsGoToNextPage postsStateEx = postsStateEx ∧
    postsGoToPage 0 postsStateEx = { postsStateEx with currentPage := 0 } :=
  ⟨navigation_noop_amended.1 commentStateEx 0 (by left; decide),
   navigation_noop_amended.1 commentStateEx 51 (by right; decide),
   navigation_noop_amended.2.1 commentStateEx (by decide),
   navigation_noop_amended.2.2.1 commentStateLast (by decide),
   navigation_noop_amended.2.2.2.1 postsStateEx (by decide),
   navigation_noop_amended.2.2.2.2.1 postsStateEx (by decide),
   navigation_noop_amended.2.2.2.2.2 postsStateEx 0⟩

/-- Navigation events never change `fetchCount` or `allPosts` on a
mounted `PostsList`: helper for C4. -/
theorem postsNavSteps_frame (acts : List PostsNavAction) (c : PostsComp) :
    (acts.foldl postsNavStep c).fetchCount = c.fetchCount ∧
    (acts.foldl postsNavStep c).state.allPosts = c.state.allPosts := by
  induction acts generalizing c with
  | nil => exact ⟨rfl, rfl⟩
  | cons a acts ih =>
      rw [List.foldl_cons]
      obtain ⟨h1, h2⟩ := ih (postsNavStep c a)
      refine ⟨h1.trans ?_, h2.trans ?_⟩
      · cases a <;> rfl
      · cases a
        · rfl
        · rw [postsNavStep]
          unfold postsGoToPreviousPage
          split <;> rfl
        · rw [postsNavStep]
          unfold postsGoToNextPage
          split <;> rfl

/-- C4: `PostsList` issues exactly one network fetch at mount
(`useEffect` with an empty dependency list), and any sequence of
page-navigation events leaves the fetch count at one and the in-memory
collection untouched — page changes only re-slice `allPosts` (the
rendered items are `currentPosts`, a pure slice of the state). -/
theorem postsList_single_fetch (outcome : FetchOutcome (List Post))
    (acts : List PostsNavAction) :
    (postsMount outcome).fetchCount = 1 ∧
    (acts.foldl postsNavStep (postsMount outcome)).fetchCount = 1 ∧
    (acts.foldl postsNavStep (postsMount outcome)).state.allPosts =
      (postsMount outcome).state.allPosts := by
  obtain ⟨h1, h2⟩ := postsNavSteps_frame acts (postsMount outcome)
  exact ⟨rfl, h1, h2⟩

/-- C5: every page-navigation event on `CommentList` that moves to an
in-range page, and every refresh, issues exactly one network fetch, and
the request for page p carries `_start = (p-1)*10` and `_limit = 10`;
in particular page 3 yields start 20, limit 10. -/
theorem commentList_one_fetch_per_nav (outcome : FetchOutcome (List Comment)) :
    (∀ (s : CommentState) (p : Int), 1 ≤ p → p ≤ commentTotalPages →
        p ≠ s.currentPage →
        (commentStep (.goto p) outcome s).2 = [commentRequest p]) ∧
    (∀ s : CommentState, 1 < s.currentPage →
        (commentStep .prev outcome s).2 = [commentRequest (s.currentPage - 1)]) ∧
    (∀ s : CommentState, s.currentPage < commentTotalPages →
        (commentStep .next outcome s).2 = [commentRequest (s.currentPage + 1)]) ∧
    (∀ s : CommentState,
        (commentStep .refresh outcome s).2 = [commentRequest s.currentPage]) ∧
    (∀ p : Int, commentRequest p = ⟨(p - 1) * 10, 10⟩) ∧
    commentRequest 3 = ⟨20, 10⟩ := by
  refine ⟨?_, ?_, ?_, fun s => rfl, fun p => rfl, rfl⟩
  · intro s p h1 h2 hne
    have hg : commentGoToPage p s = { s with currentPage := p } := by
      rw [commentGoToPage, if_pos]
      exact ⟨h1, h2⟩
    simp only [commentStep, commentNavUpdate, hg]
    rw [if_neg hne]
  · intro s h
    have hg : commentGoToPreviousPage s = { s with currentPage := s.currentPage - 1 } := by
      rw [commentGoToPreviousPage, if_pos h]
    simp only [commentStep, commentNavUpdate, hg]
    rw [if_neg (by omega : ¬s.currentPage - 1 = s.currentPage)]
  · intro s h
    have hg : commentGoToNextPage s = { s with currentPage := s.currentPage + 1 } := by
      rw [commentGoToNextPage, if_pos h]
    simp only [commentStep, commentNavUpdate, hg]
    rw [if_neg (by omega : ¬s.currentPage + 1 = s.currentPage)]

/-- Closed instance of C5: a jump to page 3 from page 1, previous from
page 50, next from page 1, and a refresh, each issuing exactly one
request with the computed offset and fixed limit. -/
theorem commentList_one_fetch_per_nav_witness :
    (commentStep (.goto 3) (.success []) commentStateEx).2 = [commentRequest 3] ∧
    (commentStep .prev (.success []) commentStateLast).2 = [commentRequest 49] ∧
    (commentStep .next (.success []) commentStateEx).2 = [commentRequest 2] ∧
    (commentStep .refresh (.success []) commentStateEx).2 = [commentRequest 1] ∧
    commentRequest 3 = ⟨20, 10⟩ :=
  ⟨(commentList_one_fetch_per_nav (.success [])).1 commentStateEx 3
      (by decide) (by decide) (by decide),
   (commentList_one_fetch_per_nav (.success [])).2.1 commentStateLast (by decide),
   (commentList_one_fetch_per_nav (.success [])).2.2.1 commentStateEx (by decide),
   (commentList_one_fetch_per_nav (.success [])).2.2.2.1 commentStateEx,
   (commentList_one_fetch_per_nav (.success [])).2.2.2.2.2⟩

/-- C6: refresh is asymmetric. A successful `CommentList` refresh
refetches the current page (one request for the current page's offset)
and leaves `currentPage` untouched, while a successful `PostsList`
refresh replaces the whole collection and resets `currentPage` to 1. -/
theorem refresh_asymmetry (s : PostsState) (t : CommentState)
    (posts : List Post) (cs : List Comment) :
    (fetchPosts (.success posts) s).currentPage = 1 ∧
    (fetchPosts (.success posts) s).allPosts = posts ∧
    (commentStep .refresh (.success cs) t).1.currentPage = t.currentPage ∧
    (commentStep .refresh (.success cs) t).1.comments = cs ∧
    (commentStep .refresh (.success cs) t).2 = [commentRequest t.currentPage] :=
  ⟨rfl, rfl, rfl, rfl, rfl⟩

theorem postsView_exactlyOne (v : PostsView) :
    exactlyOne v.isSpinner v.isErrorAlert v.isList = true := by
  cases v <;> rfl

theorem commentView_exactlyOne (v : CommentView) :
    exactlyOne v.isSpinner v.isErrorAlert v.isList = true := by
  cases v <;> rfl

theorem postsView_not_error_and_list (v : PostsView) :
    ¬(v.isErrorAlert = true ∧ v.isList = true) := by
  cases v <;> simp [PostsView.isErrorAlert, PostsView.isList]

theorem commentView_not_error_and_list (v : CommentView) :
    ¬(v.isErrorAlert = true ∧ v.isList = true) := by
  cases v <;> simp [CommentView.isErrorAlert, CommentView.isList]

/-- C7: for every state of either list component the rendered output is
exactly one of the three mutually exclusive views (spinner, error
alert, populated list); list content and an error alert are never
rendered simultaneously. -/
theorem render_exclusive (s : PostsState) (t : CommentState) :
    exactlyOne (renderPosts s).isSpinner (renderPosts s).isErrorAlert
      (renderPosts s).isList = true ∧
    ¬((renderPosts s).isErrorAlert = true ∧ (renderPosts s).isList = true) ∧
    exactlyOne (renderComments t).isSpinner (renderComments t).isErrorAlert
      (renderComments t).isList = true ∧
    ¬((renderComments t).isErrorAlert = true ∧ (renderComments t).isList = true) :=
  ⟨postsView_exactlyOne (renderPosts s),
   postsView_not_error_and_list (renderPosts s),
   commentView_exactlyOne (renderComments t),
   commentView_not_error_and_list (renderComments t)⟩

theorem errorPrefix_ne_empty (r : String) : "Error: " ++ r ≠ "" := by
  intro h
  have hlen := congrArg String.length h
  rw [String.length_append] at hlen
  have h7 : ("Error: " : String).length = 7 := rfl
  have h0 : ("" : String).length = 0 := rfl
  rw [h7, h0] at hlen
  omega

/-- C8: a non-ok response status or a transport failure leaves either
component in the Error state: the message is stored, `loading` ends
false, the loaded items are untouched (no partial results), the render
shows the error alert (which carries the retry button), and the retry —
`handleRefresh` from that state — issues exactly the same request again
(`CommentList` refetches the unchanged `currentPage`; `PostsList`
refetches the one parameterless collection URL). -/
theorem fetch_failure_error_state (s : PostsState) (t : CommentState)
    (status : Nat) (msg : String) (hmsg : msg ≠ "") :
    (fetchPosts (.httpError status) s).error =
      some ("Error: " ++ toString status) ∧
    (fetchPosts (.httpError status) s).loading = false ∧
    (fetchPosts (.httpError status) s).allPosts = s.allPosts ∧
    renderPosts (fetchPosts (.httpError status) s) =
      .errorAlert ("Error: " ++ toString status) ∧
    (fetchPosts (.transportError msg) s).error = some msg ∧
    (fetchPosts (.transportError msg) s).allPosts = s.allPosts ∧
    renderPosts (fetchPosts (.transportError msg) s) = .errorAlert msg ∧
    (commentStep .refresh (.httpError status) t).1.error =
      some ("Error: " ++ toString status) ∧
    (commentStep .refresh (.httpError status) t).1.loading = false ∧
    (commentStep .refresh (.httpError status) t).1.comments = t.comments ∧
    (commentStep .refresh (.httpError status) t).1.currentPage = t.currentPage ∧
    renderComments (commentStep .refresh (.httpError status) t).1 =
      .errorAlert ("Error: " ++ toString status) ∧
    (commentStep .refresh (.httpError status)
        (commentStep .refresh (.httpError status) t).1).2 =
      [commentRequest t.currentPage] ∧
    commentRequestUrl (commentStep .refresh (.httpError status) t).1.currentPage =
      commentRequestUrl t.currentPage := by
  have hE := errorPrefix_ne_empty (toString status)
  refine ⟨rfl, rfl, rfl, ?_, rfl, rfl, ?_, rfl, rfl, rfl, rfl, ?_, rfl, rfl⟩
  · simp [renderPosts, fetchPosts, truthyError, hE]
  · simp [renderPosts, fetchPosts, truthyError, hmsg]
  · simp [renderComments, commentStep, fetchComments, truthyError, hE]

/-- Closed instance of C8 at a 500 response and a nonempty transport
message, from concrete idle states. -/
theorem fetch_failure_error_state_witness :
    (fetchPosts (.httpError 500) postsStateEx).error = some "Error: 500" ∧
    renderPosts (fetchPosts (.httpError 500) postsStateEx) =
      .errorAlert "Error: 500" ∧
    renderPosts (fetchPosts (.transportError "Failed to fetch") postsStateEx) =
      .errorAlert "Failed to fetch" ∧
    (commentStep .refresh (.httpError 500)
        (commentStep .refresh (.httpError 500) commentStateEx).1).2 =
      [commentRequest 1] := by
  obtain ⟨h1, _, _, h4, _, _, h7, _, _, _, _, _, h13, _⟩ :=
    fetch_failure_error_state postsStateEx commentStateEx 500 "Failed to fetch"
      (by decide)
  exact ⟨h1, h4, h7, h13⟩

/-- C9: the root composer's counter starts at 0, increment adds exactly
one, reset always returns to 0; from any starting value, three
increments followed by a reset display 0. -/
theorem counter_spec :
    countInit = 0 ∧
    (∀ c : Int, incrementCount c = c + 1) ∧
    (∀ c : Int, resetCount c = 0) ∧
    (∀ c : Int,
        resetCount (incrementCount (incrementCount (incrementCount c))) = 0) :=
  ⟨rfl, fun _ => rfl, fun _ => rfl, fun _ => rfl⟩

/-- C10: on any fetch failure, in both components, the previously
loaded items and `currentPage` are exactly as before the failed fetch;
the catch branch writes only `error` and the finally branch only clears
`loading`. -/
theorem fetch_failure_frame (s : PostsState) (t : CommentState)
    (status : Nat) (msg : String) :
    (fetchPosts (.httpError status) s).allPosts = s.allPosts ∧
    (fetchPosts (.httpError status) s).currentPage = s.currentPage ∧
    (fetchPosts (.httpError status) s).error =
      some ("Error: " ++ toString status) ∧
    (fetchPosts (.httpError status) s).loading = false ∧
    (fetchPosts (.transportError msg) s).allPosts = s.allPosts ∧
    (fetchPosts (.transportError msg) s).currentPage = s.currentPage ∧
    (fetchPosts (.transportError msg) s).error = some msg ∧
    (fetchPosts (.transportError msg) s).loading = false ∧
    (fetchComments (.httpError status) t).comments = t.comments ∧
    (fetchComments (.httpError status) t).currentPage = t.currentPage ∧
    (fetchComments (.httpError status) t).error =
      some ("Error: " ++ toString status) ∧
    (fetchComments (.httpError status) t).loading = false ∧
    (fetchComments (.transportError msg) t).comments = t.comments ∧
    (fetchComments (.transportError msg) t).currentPage = t.currentPage ∧
    (fetchComments (.transportError msg) t).error = some msg ∧
    (fetchComments (.transportError msg) t).loading = false :=
  ⟨rfl, rfl, rfl, rfl, rfl, rfl, rfl, rfl, rfl, rfl, rfl, rfl, rfl, rfl, rfl, rfl⟩

end ReactHello
